import Mathlib

/-!
Verification of the LensTools ray-tracing orchestrator scripts
(`lenstools/scripts/raytracing.py`) and the FastPM snapshot reader
(`lenstools/simulations/fastpm.py`) against their specification.

The Python code is shallowly embedded: pure computations become Lean
functions over `ℚ` / `ℕ` / `List`, stateful random drawing becomes explicit
state threading of a deterministic generator model, and fatal `assert`
statements become `Except String` results.
-/

namespace LensTools

/-! Section: Jacobian-to-observable formulas

`singleRedshift` (raytracing.py lines 282-305) converts the Jacobian array
returned by `tracer.shoot` into convergence, shear and omega maps;
`simulatedCatalog` (line 552) converts it into a shear catalog.  The
Jacobian is a 4-component family of arrays; we model each array as a
function from an arbitrary pixel/galaxy index type to `ℚ`. -/

/-- Code `ConvergenceMap(data=1.0-0.5*(jacobian[0]+jacobian[3]),...)`, line 284. -/
def convergenceData {α : Type} (jacobian : Fin 4 → α → ℚ) : α → ℚ :=
  fun p => 1.0 - 0.5 * (jacobian 0 p + jacobian 3 p)

/-- First component of `ShearMap(data=np.array([0.5*(jacobian[3]-jacobian[0]),...]),...)`, line 293. -/
def shearData1 {α : Type} (jacobian : Fin 4 → α → ℚ) : α → ℚ :=
  fun p => 0.5 * (jacobian 3 p - jacobian 0 p)

/-- Second component of the shear map data, line 293. -/
def shearData2 {α : Type} (jacobian : Fin 4 → α → ℚ) : α → ℚ :=
  fun p => -0.5 * (jacobian 1 p + jacobian 2 p)

/-- Code `Spin0(data=-0.5*(jacobian[2]-jacobian[1]),...)`, line 302. -/
def omegaData {α : Type} (jacobian : Fin 4 → α → ℚ) : α → ℚ :=
  fun p => -0.5 * (jacobian 2 p - jacobian 1 p)

/-- First column of `ShearCatalog([0.5*(jacobian[3]-jacobian[0]),-0.5*(jacobian[1]+jacobian[2])],...)`, line 552. -/
def catalogShear1 {α : Type} (jacobian : Fin 4 → α → ℚ) : α → ℚ :=
  fun p => 0.5 * (jacobian 3 p - jacobian 0 p)

/-- Second column of the shear catalog, line 552. -/
def catalogShear2 {α : Type} (jacobian : Fin 4 → α → ℚ) : α → ℚ :=
  fun p => -0.5 * (jacobian 1 p + jacobian 2 p)

/-- Modelled from the spec: κ = 1 − ½(J0+J3). -/
def specConvergence (J0 J3 : ℚ) : ℚ := 1 - (J0 + J3) / 2

/-- Modelled from the spec: γ1 = ½(J3−J0). -/
def specShear1 (J0 J3 : ℚ) : ℚ := (J3 - J0) / 2

/-- Modelled from the spec: γ2 = −½(J1+J2). -/
def specShear2 (J1 J2 : ℚ) : ℚ := -((J1 + J2) / 2)

/-- Modelled from the spec: ω = −½(J2−J1). -/
def specOmega (J1 J2 : ℚ) : ℚ := -((J2 - J1) / 2)

/-! Section: FastPM header translation

`FastPMSnapshot.getHeader` (fastpm.py lines 50-80) translates the bigfile
attribute block into a LensTools header dictionary. -/

/-- The bigfile attributes read by `getHeader`: `NC`, `OmegaM`, `BoxSize`, `M0`. -/
structure BigFileAttrs where
  NC : ℕ
  OmegaM : ℚ
  BoxSize : ℚ
  M0 : ℚ

/-- The LensTools header fields produced by `FastPMSnapshot.getHeader`. -/
structure FastPMHeader where
  num_particles_file : ℕ
  num_particles_total : ℕ
  num_files : ℕ
  Om0 : ℚ
  Ode0 : ℚ
  w0 : ℚ
  wa : ℚ
  h : ℚ
  box_size : ℚ
  masses : Fin 6 → ℚ

/-- Code `FastPMSnapshot.getHeader`, fastpm.py lines 50-80: `num_particles_file
= NC**3`, `num_particles_total = num_particles_file`, `num_files = 1`,
`Om0 = OmegaM`, `Ode0 = 1 - Om0`, `w0 = -1`, `wa = 0`, `h = 0.72`,
`box_size = BoxSize*1.0e3`, `masses = [0, M0*h, 0, 0, 0, 0]`. -/
def getHeader (bf : BigFileAttrs) : FastPMHeader :=
  let h : ℚ := 0.72
  { num_particles_file := bf.NC ^ 3
    num_particles_total := bf.NC ^ 3
    num_files := 1
    Om0 := bf.OmegaM
    Ode0 := 1 - bf.OmegaM
    w0 := -1
    wa := 0
    h := h
    box_size := bf.BoxSize * 1.0e3
    masses := ![0, bf.M0 * h, 0, 0, 0, 0] }

/-! Section: Manifest distance-unit resolution

Both `singleRedshift` (raytracing.py lines 229-233) and `simulatedCatalog`
(lines 517-521) parse a manifest line field `distance=<float> <unit>` and
resolve the unit string.  The astropy units module `u` is an external
collaborator; we model attribute lookup `getattr(u, name)` as a function
from attribute names to unit values. -/

/-- The unit factor the code multiplies the parsed distance by:
`model.Mpc_over_h` when the unit string is `"Mpc/h"`, else
`getattr(u,"unit")` — note the literal string `"unit"` (lines 230-233 and
518-521). -/
def resolveDistanceUnit (lookup : String → ℚ) (mpcOverH : ℚ) (unit : String) : ℚ :=
  if unit = "Mpc/h" then mpcOverH else lookup "unit"

/-- Code `distance = float(distance) * <resolved unit>` (lines 231/233). -/
def parsedDistance (lookup : String → ℚ) (mpcOverH : ℚ) (distance : ℚ) (unit : String) : ℚ :=
  distance * resolveDistanceUnit lookup mpcOverH unit

/-- Modelled from the spec: the unit is resolved from the PARSED unit name
via the units collaborator, i.e. `getattr(u, unit)`. -/
def specResolveDistanceUnit (lookup : String → ℚ) (mpcOverH : ℚ) (unit : String) : ℚ :=
  if unit = "Mpc/h" then mpcOverH else lookup unit

/-- Modelled from the spec: distance times the unit resolved from the
parsed unit name. -/
def specParsedDistance (lookup : String → ℚ) (mpcOverH : ℚ) (distance : ℚ) (unit : String) : ℚ :=
  distance * specResolveDistanceUnit lookup mpcOverH unit

/-- A concrete units-collaborator table: `deg ↦ 2`, `unit ↦ 7`, all other
attribute names undefined (`0`). -/
def demoUnitTable : String → ℚ :=
  fun s => if s = "deg" then 2 else if s = "unit" then 7 else 0

/-! Section: Configuration errors and the realization partition

Fatal `assert` statements are embedded as `Except ConfigError`. -/

/-- The fatal configuration errors of the orchestrator that the claims
are about. -/
inductive ConfigError where
  | galaxyCountMismatch (got expected : ℕ)
  | loadBalanceViolation (realizations tasks : ℕ)
  deriving DecidableEq

/-- Lines 158-168 (`singleRedshift`) and 450-460 (`simulatedCatalog`):
with no pool the task processes `[0, R)`; with a pool of `size+1` tasks
the code asserts `R % (size+1) == 0` and assigns task `rank` the range
`[(R/(size+1))*rank, (R/(size+1))*(rank+1))`.  The pool is modelled as
`Option (size, rank)`. -/
def taskAssignment (R : ℕ) : Option (ℕ × ℕ) → Except ConfigError (ℕ × ℕ)
  | none => .ok (0, R)
  | some (size, rank) =>
    if R % (size + 1) = 0 then
      .ok ((R / (size + 1)) * rank, (R / (size + 1)) * (rank + 1))
    else
      .error (.loadBalanceViolation R (size + 1))

/-- The set of realization indices assigned to one task: the half-open
interval `[(R/tasks)*rank, (R/tasks)*(rank+1))`. -/
def taskRange (R tasks rank : ℕ) : Finset ℕ :=
  Finset.Ico ((R / tasks) * rank) ((R / tasks) * (rank + 1))

/-- Code `assert reduce(add,galaxies_in_catalog)==total_num_galaxies` (line 418). -/
def validateGalaxyCount (counts : List ℕ) (total : ℕ) : Except ConfigError Unit :=
  if counts.sum = total then .ok () else .error (.galaxyCountMismatch counts.sum total)

/-- The realization indices for which `simulatedCatalog` reaches
`tracer.shoot` (line 545): the galaxy-count validation (line 418) and the
load-balancing assert (line 456) run, in that order, before the
realization loop (line 487); on success the loop runs over the assigned
half-open range. -/
def simulatedCatalogShoots (counts : List ℕ) (total : ℕ) (R : ℕ)
    (pool : Option (ℕ × ℕ)) : Except ConfigError (List ℕ) :=
  validateGalaxyCount counts total >>= fun _ =>
  taskAssignment R pool >>= fun fl =>
  .ok (List.range' fl.1 (fl.2 - fl.1))

/-- The realization indices for which `singleRedshift` reaches
`tracer.shoot` (line 275): the load-balancing assert (line 164) runs
before the realization loop (line 199). -/
def singleRedshiftShoots (R : ℕ) (pool : Option (ℕ × ℕ)) : Except ConfigError (List ℕ) :=
  taskAssignment R pool >>= fun fl =>
  .ok (List.range' fl.1 (fl.2 - fl.1))

/-! Section: Catalog split by cumulative galaxy count

`simulatedCatalog` loads the per-file galaxy counts list
`galaxies_in_catalog` (lines 386-415) and, on save (lines 554-568), writes
for input file `n` the slice
`shear_catalog[galaxies_before : galaxies_before+galaxies_in_catalog[n]]`
where `galaxies_before = reduce(add, galaxies_in_catalog[:n])` (`0` for an
empty prefix, via the `TypeError` fallback). -/

/-- Code `reduce(add, galaxies_in_catalog[:n])`, with the `TypeError` fallback
to `0` for the empty prefix (lines 556-559). -/
def galaxiesBefore (counts : List ℕ) (n : ℕ) : ℕ := (counts.take n).sum

/-- The per-file slice of the combined shear catalog written on save:
`shear_catalog[galaxies_before : galaxies_before+galaxies_in_catalog[n]]`
(line 568). -/
def shearCatalogSlice {α : Type} (combined : List α) (counts : List ℕ) (n : ℕ) : List α :=
  (combined.drop (galaxiesBefore counts n)).take (counts.getD n 0)

theorem galaxiesBefore_succ_eq (counts : List ℕ) (n : ℕ) :
    galaxiesBefore counts (n + 1) = galaxiesBefore counts n + counts.getD n 0 := by
  induction counts generalizing n with
  | nil => simp [galaxiesBefore]
  | cons c rest ih =>
    cases n with
    | zero => simp [galaxiesBefore]
    | succ m =>
      simp only [galaxiesBefore, List.take_succ_cons, List.sum_cons,
        List.getD_cons_succ]
      have hm := ih m
      simp only [galaxiesBefore] at hm
      omega

theorem galaxiesBefore_mono (counts : List ℕ) : Monotone (galaxiesBefore counts) :=
  monotone_nat_of_le_succ fun n => by rw [galaxiesBefore_succ_eq]; omega

theorem galaxiesBefore_add_getD_le (counts : List ℕ) (n : ℕ) :
    galaxiesBefore counts n + counts.getD n 0 ≤ counts.sum := by
  induction counts generalizing n with
  | nil => simp [galaxiesBefore]
  | cons c rest ih =>
    cases n with
    | zero => simp [galaxiesBefore]
    | succ m =>
      simp only [galaxiesBefore, List.take_succ_cons, List.sum_cons,
        List.getD_cons_succ]
      have := ih m
      simp only [galaxiesBefore] at this
      omega

theorem shearCatalogSlice_cons {α : Type} (combined : List α) (c : ℕ)
    (rest : List ℕ) (n : ℕ) :
    shearCatalogSlice combined (c :: rest) (n + 1) =
      shearCatalogSlice (combined.drop c) rest n := by
  simp only [shearCatalogSlice, galaxiesBefore, List.take_succ_cons,
    List.sum_cons, List.getD_cons_succ, List.drop_drop]

/-! Section: Random generator model

`np.random` is an external collaborator; we model it as a deterministic
64-bit congruential state.  `np.random.seed(n)` sets the state to `n`;
`np.random.randint(low=0,high=h)` advances the state and returns a value
reduced modulo `h` (the collaborator's contract: a value in `[0, h)`). -/

/-- One step of the generator state. -/
def rngNext (state : ℕ) : ℕ :=
  (6364136223846793005 * state + 1442695040888963407) % 2 ^ 64

/-- Code `np.random.seed(settings.seed + pool.rank)` when a pool is present,
else `np.random.seed(settings.seed)` (raytracing.py lines 108-112 and
364-368); the seed is the initial generator state. -/
def seedFor (seed : ℕ) : Option ℕ → ℕ
  | some rank => seed + rank
  | none => seed

/-- Code `np.random.randint(low=0,high=high,size=n)`: a batch of `n` draws with
the same exclusive upper bound, returning the drawn values and the final
state. -/
def drawMany (state high : ℕ) : ℕ → List ℕ × ℕ
  | 0 => ([], state)
  | n + 1 =>
    let st1 := rngNext state
    let rest := drawMany st1 high n
    (st1 % high :: rest.1, rest.2)

/-- The randomization matrix of `simulatedCatalog`, lines 474-478:
component 0 is filled with `catalog_realizations*num_snapshots` draws
bounded by `len(nbody_realizations)`, then component 1 bounded by
`len(cut_points)`, then component 2 bounded by `len(normals)`; the entry
for realization `r` and snapshot `s` sits at row-major index `r*S+s`.
The whole matrix is drawn from the worker's generator state before the
realization loop (line 487) starts. -/
def buildRandomizer (state R S nNbody nCut nNormal : ℕ) :
    (ℕ → ℕ → ℕ × ℕ × ℕ) × ℕ :=
  let d0 := drawMany state nNbody (R * S)
  let d1 := drawMany d0.2 nCut (R * S)
  let d2 := drawMany d1.2 nNormal (R * S)
  (fun r s => (d0.1.getD (r * S + s) 0, d1.1.getD (r * S + s) 0, d2.1.getD (r * S + s) 0),
    d2.2)

theorem drawMany_succ (state high n : ℕ) :
    drawMany state high (n + 1) =
      (rngNext state % high :: (drawMany (rngNext state) high n).1,
        (drawMany (rngNext state) high n).2) := rfl

theorem drawMany_getD_lt (high : ℕ) (hpos : 0 < high) :
    ∀ (n : ℕ) (state i : ℕ), i < n → (drawMany state high n).1.getD i 0 < high := by
  intro n
  induction n with
  | zero => intro state i hi; omega
  | succ n ih =>
    intro state i hi
    rw [drawMany_succ]
    cases i with
    | zero =>
      rw [List.getD_cons_zero]
      exact Nat.mod_lt (rngNext state) hpos
    | succ j =>
      rw [List.getD_cons_succ]
      exact ih (rngNext state) j (by omega)

/-! Section: Plane file names

Strings are modelled as lists of characters.  `snap<N>_potentialPlane
<cut>_normal<axis>.fits` under `<storage>/ic<n>/<plane_set>` (lines 464
and 527). -/

/-- The decimal digits of a natural number, as characters. -/
def natChars (n : ℕ) : List Char := Nat.toDigits 10 n

/-- Code `os.path.join(a, b)` for the non-empty relative components used here. -/
def pathJoin (a b : List Char) : List Char := a ++ "/".toList ++ b

/-- Code `"snap{0}_potentialPlane{1}_normal{2}.fits".format(...)`, line 527. -/
def planeBasename (snapshot cut normal : ℕ) : List Char :=
  "snap".toList ++ natChars snapshot ++ "_potentialPlane".toList ++ natChars cut ++
    "_normal".toList ++ natChars normal ++ ".fits".toList

/-- Code `plane_path.format(n)` with `plane_path = os.path.join(collection.storage,
"ic{0}", settings.plane_set)`, line 464. -/
def planePath (storage planeSet : List Char) (icNumber : ℕ) : List Char :=
  pathJoin (pathJoin storage ("ic".toList ++ natChars icNumber)) planeSet

/-- The plane filename used by `simulatedCatalog` for realization `r` and
snapshot `s` (line 527): the candidate lists `nbody_realizations`,
`cut_points`, `normals` are indexed by `randomizer[r,s,0]`,
`randomizer[r,s,1]`, `randomizer[r,s,2]` respectively. -/
def planeName (storage planeSet : List Char) (nbodyReal cutPoints normals : List ℕ)
    (randomizer : ℕ → ℕ → ℕ × ℕ × ℕ) (r s snapshot : ℕ) : List Char :=
  pathJoin (planePath storage planeSet (nbodyReal.getD (randomizer r s).1 0))
    (planeBasename snapshot (cutPoints.getD (randomizer r s).2.1 0)
      (normals.getD (randomizer r s).2.2 0))

/-- The plane filename as a function of one randomization-matrix entry
alone: the candidate-list indices are exactly the three components of the
entry. -/
def planeNameOfEntry (storage planeSet : List Char)
    (nbodyReal cutPoints normals : List ℕ) (entry : ℕ × ℕ × ℕ) (snapshot : ℕ) : List Char :=
  pathJoin (planePath storage planeSet (nbodyReal.getD entry.1 0))
    (planeBasename snapshot (cutPoints.getD entry.2.1 0) (normals.getD entry.2.2 0))

/-! Section: Per-realization draws of `singleRedshift`

`singleRedshift` draws, for each manifest line of each realization, three
`np.random.randint` values bounded by the lengths of the candidate lists
of the selected collection (lines 243-245).  The per-line bounds are
determined by the manifest and the settings. -/

/-- The three `np.random.randint(low=0,high=...)` draws for one manifest
line, lines 243-245. -/
def drawTriple (state : ℕ) (bounds : ℕ × ℕ × ℕ) : (ℕ × ℕ × ℕ) × ℕ :=
  let s1 := rngNext state
  let s2 := rngNext s1
  let s3 := rngNext s2
  ((s1 % bounds.1, s2 % bounds.2.1, s3 % bounds.2.2), s3)

/-- The plane selections of one realization: one triple per manifest
line, threading the generator state (lines 215-253). -/
def drawRealizationSelections (state : ℕ) :
    List (ℕ × ℕ × ℕ) → List (ℕ × ℕ × ℕ) × ℕ
  | [] => ([], state)
  | b :: rest =>
    let t := drawTriple state b
    let ts := drawRealizationSelections t.2 rest
    (t.1 :: ts.1, ts.2)

/-- The plane selections of all realizations processed by one worker, in
order (lines 199-253). -/
def mapModeSelections (state : ℕ) (bounds : List (ℕ × ℕ × ℕ)) :
    ℕ → List (List (ℕ × ℕ × ℕ))
  | 0 => []
  | n + 1 =>
    let ts := drawRealizationSelections state bounds
    ts.1 :: mapModeSelections ts.2 bounds n

/-- The full sequence of random plane selections of one `singleRedshift`
worker: the generator is seeded once (lines 108-112), before any draw,
and then advanced through the realizations. -/
def singleRedshiftSelections (seed : ℕ) (pool : Option ℕ)
    (bounds : List (ℕ × ℕ × ℕ)) (numRealizations : ℕ) : List (List (ℕ × ℕ × ℕ)) :=
  mapModeSelections (seedFor seed pool) bounds numRealizations

/-- The randomization matrix of one `simulatedCatalog` worker: the
generator is seeded once (lines 364-368), before any draw, and the matrix
is the first thing drawn from it (lines 474-478). -/
def simulatedCatalogRandomizer (seed : ℕ) (pool : Option ℕ)
    (R S nNbody nCut nNormal : ℕ) : (ℕ → ℕ → ℕ × ℕ × ℕ) × ℕ :=
  buildRandomizer (seedFor seed pool) R S nNbody nCut nNormal

/-! Section: Catalog savenames

`simulatedCatalog` writes the per-file shear catalogs under names built at
lines 562-565, optionally inside the numbered subdirectories built by
`_subdirectories` (lines 33-44). -/

/-- Code `galaxy_position_file.split(".")[0]`: the part of the path before its
first dot (the whole path when it has none). -/
def pySplitDotHead (s : List Char) : List Char := s.takeWhile (fun c => c != '.')

/-- Code `os.path.basename`: the part of the path after its last separator. -/
def pyBasename (s : List Char) : List Char :=
  (s.reverse.takeWhile (fun c => c != '/')).reverse

/-- Code `"{0:04d}".format(n)`: decimal digits left-padded with zeros to
width 4. -/
def zeroPad4 (n : ℕ) : List Char :=
  List.replicate (4 - (natChars n).length) '0' ++ natChars n

/-- Code `"WLshear_" + os.path.basename(galaxy_position_file.split(".")[0]) +
"_{0:04d}r.{1}".format(r+1, settings.format)`, lines 563 and 565. -/
def wlShearBasename (f : List Char) (r : ℕ) (format : List Char) : List Char :=
  "WLshear_".toList ++ pyBasename (pySplitDotHead f) ++ "_".toList ++
    zeroPad4 (r + 1) ++ "r.".toList ++ format

/-- Code `_subdirectories(num_realizations, realizations_in_subdir)`, lines
33-44, past its divisibility assert: the empty list when the two counts
are equal, else the labels `"{c*k+1}-{(c+1)*k}"` for `c` in
`range(num//k)`. -/
def subdirectories (num k : ℕ) : List (List Char) :=
  if num = k then []
  else (List.range (num / k)).map fun c =>
    natChars (c * k + 1) ++ "-".toList ++ natChars ((c + 1) * k)

/-- The savename of the per-file shear catalog, lines 562-565: inside
`catalog_subdirectory[r // realizations_in_subdir]` when the subdirectory
list is non-empty, directly in the catalog save path otherwise. -/
def shearCatalogSavename (savePath : List Char) (subdirs : List (List Char))
    (k : ℕ) (f : List Char) (r : ℕ) (format : List Char) : List Char :=
  if subdirs.length ≠ 0 then
    pathJoin (pathJoin savePath (subdirs.getD (r / k) []))
      (wlShearBasename f r format)
  else
    pathJoin savePath (wlShearBasename f r format)

/-- Modelled from the spec: the basename of `f` without its extension
(everything of the basename before its last dot; the basename itself when
it has no dot). -/
def specBasenameNoExt (f : List Char) : List Char :=
  let b := pyBasename f
  if '.' ∈ b then ((b.reverse.dropWhile (fun c => c != '.')).drop 1).reverse
  else b

/-- Modelled from the spec (the claim's filename): `"WLshear_" +
basename-of-f-without-extension + "_" + (r+1 zero-padded to 4 digits) +
"r." + settings.format`, inside the numbered subdirectory
`(c*k+1)-((c+1)*k)` with `c = r // k` when `k` is less than the total,
directly in the save path when `k` equals the total. -/
def specShearSavename (savePath : List Char) (total k : ℕ) (f : List Char)
    (r : ℕ) (format : List Char) : List Char :=
  let name := "WLshear_".toList ++ specBasenameNoExt f ++ "_".toList ++
    zeroPad4 (r + 1) ++ "r.".toList ++ format
  if k = total then pathJoin savePath name
  else pathJoin (pathJoin savePath
    (natChars (r / k * k + 1) ++ "-".toList ++ natChars ((r / k + 1) * k))) name

/-- The amended filename: as the claim, except that the name component is
`"WLshear_"` followed by the basename of the part of `f` before its FIRST
dot (which agrees with the claim's basename-without-extension whenever the
directory part of `f` has no dot and the basename has at most one). -/
def amendedShearSavename (savePath : List Char) (total k : ℕ) (f : List Char)
    (r : ℕ) (format : List Char) : List Char :=
  let name := "WLshear_".toList ++ pyBasename (pySplitDotHead f) ++ "_".toList ++
    zeroPad4 (r + 1) ++ "r.".toList ++ format
  if k = total then pathJoin savePath name
  else pathJoin (pathJoin savePath
    (natChars (r / k * k + 1) ++ "-".toList ++ natChars ((r / k + 1) * k))) name

/-- C1: in both map mode (`singleRedshift`) and catalog mode
(`simulatedCatalog`), the maps/catalog columns computed from the Jacobian
array satisfy, exactly, convergence = 1 − ½(J0+J3), shear1 = ½(J3−J0),
shear2 = −½(J1+J2), omega = −½(J2−J1), as algebraic identities with no
tolerance. -/
theorem jacobian_observable_formulas {α : Type} (jacobian : Fin 4 → α → ℚ) (p : α) :
    convergenceData jacobian p = specConvergence (jacobian 0 p) (jacobian 3 p) ∧
    shearData1 jacobian p = specShear1 (jacobian 0 p) (jacobian 3 p) ∧
    shearData2 jacobian p = specShear2 (jacobian 1 p) (jacobian 2 p) ∧
    omegaData jacobian p = specOmega (jacobian 1 p) (jacobian 2 p) ∧
    catalogShear1 jacobian p = specShear1 (jacobian 0 p) (jacobian 3 p) ∧
    catalogShear2 jacobian p = specShear2 (jacobian 1 p) (jacobian 2 p) := by
  refine ⟨?_, ?_, ?_, ?_, ?_, ?_⟩ <;>
    simp only [convergenceData, shearData1, shearData2, omegaData, catalogShear1,
      catalogShear2, specConvergence, specShear1, specShear2, specOmega] <;>
    ring

/-- C10: the header returned by `FastPMSnapshot.getHeader` satisfies
`Ode0 = 1 - Om0`, `w0 = -1`, `wa = 0`, `h = 0.72` (independent of the file
contents), `num_files = 1`, `num_particles_file = num_particles_total =
NC^3`, `box_size = 1000 * BoxSize`, and the masses array is zero except
entry 1, which equals `M0 * h`. -/
theorem getHeader_invariants (bf : BigFileAttrs) :
    (getHeader bf).Ode0 = 1 - (getHeader bf).Om0 ∧
    (getHeader bf).w0 = -1 ∧
    (getHeader bf).wa = 0 ∧
    (getHeader bf).h = 0.72 ∧
    (getHeader bf).num_files = 1 ∧
    (getHeader bf).num_particles_file = bf.NC ^ 3 ∧
    (getHeader bf).num_particles_total = (getHeader bf).num_particles_file ∧
    (getHeader bf).box_size = 1000 * bf.BoxSize ∧
    (getHeader bf).masses 1 = bf.M0 * (getHeader bf).h ∧
    (getHeader bf).masses 0 = 0 ∧ (getHeader bf).masses 2 = 0 ∧
    (getHeader bf).masses 3 = 0 ∧ (getHeader bf).masses 4 = 0 ∧
    (getHeader bf).masses 5 = 0 := by
  refine ⟨rfl, rfl, rfl, by norm_num [getHeader], rfl, rfl, rfl, by
    simp only [getHeader]; ring, ?_, ?_, ?_, ?_, ?_, ?_⟩ <;> rfl

/-- C3 (code bug): on a manifest line whose unit field is `"deg"` with the
collaborator table `deg ↦ 2`, `unit ↦ 7` and `Mpc_over_h = 5`, the code
multiplies the parsed distance `3` by the attribute literally named
`"unit"` (giving `21`), not by the attribute named by the parsed unit
string as the claim states (which would give `6`); the `"Mpc/h"` branch
itself is resolved to `Mpc_over_h` as claimed. -/
theorem unit_lookup_bug_at_deg :
    parsedDistance demoUnitTable 5 3 "deg" = 3 * demoUnitTable "unit" ∧
    parsedDistance demoUnitTable 5 3 "deg" = 21 ∧
    specParsedDistance demoUnitTable 5 3 "deg" = 6 ∧
    parsedDistance demoUnitTable 5 3 "deg" ≠ specParsedDistance demoUnitTable 5 3 "deg" ∧
    parsedDistance demoUnitTable 5 3 "Mpc/h" = 3 * 5 := by
  have h1 : ("deg" : String) ≠ "Mpc/h" := by decide
  have h2 : ("unit" : String) ≠ "deg" := by decide
  have h3 : ("Mpc/h" : String) = "Mpc/h" := rfl
  have h4 : ("deg" : String) = "deg" := rfl
  have h5 : ("unit" : String) = "unit" := rfl
  simp only [parsedDistance, specParsedDistance, resolveDistanceUnit,
    specResolveDistanceUnit, demoUnitTable, if_neg h1, if_neg h2,
    if_pos h3, if_pos h4, if_pos h5]
  norm_num

/-- C6: with input files declaring galaxy counts `[100, 250, 50]`,
`total_num_galaxies = 400` passes validation and the catalog run reaches
the realization loop, while `total_num_galaxies = 399` fails with a
configuration error and no `tracer.shoot` call is reached (the run
produces no shoot events). -/
theorem catalog_galaxy_accounting :
    validateGalaxyCount [100, 250, 50] 400 = .ok () ∧
    simulatedCatalogShoots [100, 250, 50] 400 16 none = .ok (List.range' 0 16) ∧
    validateGalaxyCount [100, 250, 50] 399 = .error (.galaxyCountMismatch 400 399) ∧
    simulatedCatalogShoots [100, 250, 50] 399 16 none =
      .error (.galaxyCountMismatch 400 399) := by
  exact ⟨rfl, rfl, rfl, rfl⟩

/-- C8: when the realization count `R` is not divisible by the worker
count `size+1`, both `singleRedshift` and `simulatedCatalog` fail with the
fatal load-balancing assertion before processing any realization: the
assignment is an error and neither run produces any shoot event. -/
theorem load_balance_assert (R size rank : ℕ) (counts : List ℕ) (total : ℕ)
    (hdiv : R % (size + 1) ≠ 0) (hsum : counts.sum = total) :
    taskAssignment R (some (size, rank)) = .error (.loadBalanceViolation R (size + 1)) ∧
    singleRedshiftShoots R (some (size, rank)) = .error (.loadBalanceViolation R (size + 1)) ∧
    simulatedCatalogShoots counts total R (some (size, rank)) =
      .error (.loadBalanceViolation R (size + 1)) := by
  have hassign : taskAssignment R (some (size, rank)) =
      .error (.loadBalanceViolation R (size + 1)) := by
    simp [taskAssignment, hdiv]
  refine ⟨hassign, ?_, ?_⟩
  · simp only [singleRedshiftShoots, hassign]
    rfl
  · simp only [simulatedCatalogShoots, validateGalaxyCount, if_pos hsum, hassign]
    rfl

/-- Witness for `load_balance_assert` at `R = 5`, `size = 1`, `rank = 0`,
counts `[2]`, total `2`. -/
theorem load_balance_assert_witness :
    5 % (1 + 1) ≠ 0 ∧ [2].sum = 2 ∧
    taskAssignment 5 (some (1, 0)) = .error (.loadBalanceViolation 5 2) :=
  ⟨by decide, by decide, (load_balance_assert 5 1 0 [2] 2 (by decide) (by decide)).1⟩

/-- C2: when `R % (size+1) = 0`, the per-task ranges produced by the code
(`first = (R/W)*rank`, `last = (R/W)*(rank+1)` with `W = pool.size+1`)
are pairwise disjoint, each of size `R/W`, and their union over ranks
`0..W-1` is exactly `{0,...,R-1}`; with no pool the single range is
`[0, R)`.  `taskAssignment` is shared by `singleRedshift` and
`simulatedCatalog`. -/
theorem realization_partition (R size : ℕ) (hdiv : R % (size + 1) = 0) :
    (∀ rank, taskAssignment R (some (size, rank)) =
      .ok ((R / (size + 1)) * rank, (R / (size + 1)) * (rank + 1))) ∧
    (∀ rank, (taskRange R (size + 1) rank).card = R / (size + 1)) ∧
    Set.univ.PairwiseDisjoint (taskRange R (size + 1)) ∧
    (Finset.range (size + 1)).biUnion (taskRange R (size + 1)) = Finset.range R ∧
    taskAssignment R none = .ok (0, R) ∧ Finset.Ico 0 R = Finset.range R := by
  obtain ⟨q, hR⟩ := Nat.dvd_of_mod_eq_zero hdiv
  have hq : R / (size + 1) = q := by
    rw [hR]; exact Nat.mul_div_cancel_left q (by omega)
  have hRq : q * (size + 1) = R := by rw [hR, Nat.mul_comm]
  have hdisj : ∀ a b : ℕ, a < b →
      Disjoint (taskRange R (size + 1) a) (taskRange R (size + 1) b) := by
    intro a b hab
    have hle : R / (size + 1) * (a + 1) ≤ R / (size + 1) * b :=
      Nat.mul_le_mul_left _ (by omega)
    simp only [taskRange, Finset.disjoint_left, Finset.mem_Ico]
    rintro x ⟨_, h2⟩ ⟨h3, _⟩
    omega
  refine ⟨fun rank => by simp [taskAssignment, hdiv], ?_, ?_, ?_, rfl, ?_⟩
  · intro rank
    have h1 : R / (size + 1) * (rank + 1) = R / (size + 1) * rank + R / (size + 1) :=
      Nat.mul_succ _ _
    simp only [taskRange, Nat.card_Ico, h1]
    omega
  · intro a _ b _ hab
    rcases Nat.lt_or_ge a b with h | h
    · exact hdisj a b h
    · exact (hdisj b a (by omega)).symm
  · ext x
    simp only [Finset.mem_biUnion, Finset.mem_range, taskRange, Finset.mem_Ico, hq]
    constructor
    · rintro ⟨rank, hrank, _, h2⟩
      have h3 : q * (rank + 1) ≤ q * (size + 1) := Nat.mul_le_mul_left _ (by omega)
      omega
    · intro hx
      have hqpos : 0 < q := by
        by_contra h0
        have hq0 : q = 0 := by omega
        rw [hq0, Nat.mul_zero] at hR
        omega
      have hdm := Nat.div_add_mod x q
      have hmod := Nat.mod_lt x hqpos
      refine ⟨x / q, ?_, ?_, ?_⟩
      · by_contra hcon
        have hcon2 : size + 1 ≤ x / q := by omega
        have h5 : q * (size + 1) ≤ q * (x / q) := Nat.mul_le_mul_left _ hcon2
        omega
      · omega
      · have h7 : q * (x / q + 1) = q * (x / q) + q := Nat.mul_succ _ _
        omega
  · ext x
    simp [Finset.mem_Ico, Finset.mem_range]

/-- Witness for `realization_partition` at `R = 6`, `size = 2`. -/
theorem realization_partition_witness :
    6 % (2 + 1) = 0 ∧
    (Finset.range (2 + 1)).biUnion (taskRange 6 (2 + 1)) = Finset.range 6 :=
  ⟨by decide, (realization_partition 6 2 (by decide)).2.2.2.1⟩

/-- C7: when the galaxy counts sum to the combined catalog's length, the
per-file slice for file `n` starts at the sum of the counts of files
`0..n-1` and has length equal to file `n`'s count, the slices' index
ranges are pairwise disjoint, and concatenating the slices in input-file
order reproduces the combined catalog exactly. -/
theorem catalog_split_roundtrip {α : Type} (combined : List α) (counts : List ℕ)
    (h : counts.sum = combined.length) :
    ((List.range counts.length).map (shearCatalogSlice combined counts)).flatten = combined ∧
    (∀ n, (shearCatalogSlice combined counts n).length = counts.getD n 0) ∧
    Set.univ.PairwiseDisjoint (fun n =>
      Finset.Ico (galaxiesBefore counts n) (galaxiesBefore counts n + counts.getD n 0)) := by
  refine ⟨?_, ?_, ?_⟩
  · induction counts generalizing combined with
    | nil =>
      simp only [List.sum_nil] at h
      simp [List.length_eq_zero.mp h.symm]
    | cons c rest ih =>
      simp only [List.sum_cons] at h
      have hc : c ≤ combined.length := by omega
      have hslice0 : shearCatalogSlice combined (c :: rest) 0 = combined.take c := by
        simp [shearCatalogSlice, galaxiesBefore]
      rw [List.length_cons, List.range_succ_eq_map, List.map_cons, List.map_map,
        List.flatten_cons, hslice0]
      have hmapeq : (List.range rest.length).map
          (shearCatalogSlice combined (c :: rest) ∘ Nat.succ) =
          (List.range rest.length).map (shearCatalogSlice (combined.drop c) rest) := by
        refine List.map_congr_left fun n _ => ?_
        exact shearCatalogSlice_cons combined c rest n
      rw [hmapeq, ih (combined.drop c) (by simp [List.length_drop]; omega)]
      exact List.take_append_drop c combined
  · intro n
    have hle := galaxiesBefore_add_getD_le counts n
    simp only [shearCatalogSlice, List.length_take, List.length_drop]
    omega
  · intro m _ n _ hmn
    have key : ∀ a b : ℕ, a < b →
        Disjoint (Finset.Ico (galaxiesBefore counts a)
            (galaxiesBefore counts a + counts.getD a 0))
          (Finset.Ico (galaxiesBefore counts b)
            (galaxiesBefore counts b + counts.getD b 0)) := by
      intro a b hab
      have h1 : galaxiesBefore counts a + counts.getD a 0 ≤ galaxiesBefore counts b := by
        rw [← galaxiesBefore_succ_eq]
        exact galaxiesBefore_mono counts (by omega)
      simp only [Finset.disjoint_left, Finset.mem_Ico]
      rintro x ⟨_, h2⟩ ⟨h3, _⟩
      omega
    rcases Nat.lt_or_ge m n with hlt | hge
    · exact key m n hlt
    · exact (key n m (by omega)).symm

/-- Witness for `catalog_split_roundtrip` with a combined catalog of 4
galaxies split into counts `[1, 3]`. -/
theorem catalog_split_roundtrip_witness :
    ([1, 3] : List ℕ).sum = ([10, 20, 30, 40] : List ℕ).length ∧
    ((List.range ([1, 3] : List ℕ).length).map
      (shearCatalogSlice ([10, 20, 30, 40] : List ℕ) [1, 3])).flatten = [10, 20, 30, 40] :=
  ⟨by decide, (catalog_split_roundtrip [10, 20, 30, 40] [1, 3] (by decide)).1⟩

/-- C4: every entry of the randomization matrix drawn before the
realization loop has component 0 in `[0, len(nbody_realizations))`,
component 1 in `[0, len(cut_points))` and component 2 in
`[0, len(normals))`, and the plane filename for realization `r` and
snapshot `s` indexes the candidate lists only through the matrix entry at
`(r, s)` (it is a function of that entry alone). -/
theorem randomizer_matrix_invariants (state R S nNbody nCut nNormal r s : ℕ)
    (hr : r < R) (hs : s < S)
    (h0 : 0 < nNbody) (h1 : 0 < nCut) (h2 : 0 < nNormal) :
    ((buildRandomizer state R S nNbody nCut nNormal).1 r s).1 < nNbody ∧
    ((buildRandomizer state R S nNbody nCut nNormal).1 r s).2.1 < nCut ∧
    ((buildRandomizer state R S nNbody nCut nNormal).1 r s).2.2 < nNormal ∧
    (∀ (storage planeSet : List Char) (nbodyReal cutPoints normals : List ℕ)
        (randomizer : ℕ → ℕ → ℕ × ℕ × ℕ) (snapshot : ℕ),
      planeName storage planeSet nbodyReal cutPoints normals randomizer r s snapshot =
        planeNameOfEntry storage planeSet nbodyReal cutPoints normals
          (randomizer r s) snapshot) := by
  have hidx : r * S + s < R * S := by
    have hr1 : r + 1 ≤ R := hr
    have : (r + 1) * S ≤ R * S := Nat.mul_le_mul_right S hr1
    have : r * S + S ≤ R * S := by rwa [Nat.succ_mul] at this
    omega
  refine ⟨?_, ?_, ?_, ?_⟩
  · exact drawMany_getD_lt nNbody h0 _ _ _ hidx
  · exact drawMany_getD_lt nCut h1 _ _ _ hidx
  · exact drawMany_getD_lt nNormal h2 _ _ _ hidx
  · intro storage planeSet nbodyReal cutPoints normals randomizer snapshot
    rfl

/-- Witness for `randomizer_matrix_invariants` at state `1`, a 2×2 matrix,
candidate-list lengths `3`, `2`, `1`, entry `(1, 0)`. -/
theorem randomizer_matrix_invariants_witness :
    (1 < 2 ∧ 0 < 2 ∧ 0 < 3 ∧ 0 < 2 ∧ 0 < 1) ∧
    ((buildRandomizer 1 2 2 3 2 1).1 1 0).1 < 3 :=
  ⟨⟨by decide, by decide, by decide, by decide, by decide⟩,
    (randomizer_matrix_invariants 1 2 2 3 2 1 1 0 (by decide) (by decide)
      (by decide) (by decide) (by decide)).1⟩

/-- C5: in both modes the generator is seeded exactly once per worker
before any draw, with `settings.seed + pool.rank` (or `settings.seed`
alone without a pool), and every random draw is a function of that single
seed: two runs whose seed-plus-rank agree (in particular two runs with
identical settings, manifest-derived bounds and rank) produce identical
sequences of random plane selections and identical randomization
matrices. -/
theorem seeding_determinism (seed1 seed2 rank1 rank2 : ℕ)
    (bounds : List (ℕ × ℕ × ℕ)) (n R S nNbody nCut nNormal : ℕ)
    (h : seed1 + rank1 = seed2 + rank2) :
    seedFor seed1 (some rank1) = seed1 + rank1 ∧
    seedFor seed1 none = seed1 ∧
    singleRedshiftSelections seed1 (some rank1) bounds n =
      singleRedshiftSelections seed2 (some rank2) bounds n ∧
    simulatedCatalogRandomizer seed1 (some rank1) R S nNbody nCut nNormal =
      simulatedCatalogRandomizer seed2 (some rank2) R S nNbody nCut nNormal := by
  refine ⟨rfl, rfl, ?_, ?_⟩
  · simp only [singleRedshiftSelections, seedFor, h]
  · simp only [simulatedCatalogRandomizer, seedFor, h]

/-- Witness for `seeding_determinism`: seed 3 at rank 2 and seed 4 at rank
1 agree on seed-plus-rank, hence draw the same selections. -/
theorem seeding_determinism_witness :
    3 + 2 = 4 + 1 ∧
    singleRedshiftSelections 3 (some 2) [(2, 2, 2)] 1 =
      singleRedshiftSelections 4 (some 1) [(2, 2, 2)] 1 :=
  ⟨by decide,
    (seeding_determinism 3 4 2 1 [(2, 2, 2)] 1 1 1 1 1 1 (by decide)).2.2.1⟩

theorem getD_map_range {β : Type} (g : ℕ → β) (m i : ℕ) (d : β) (hi : i < m) :
    ((List.range m).map g).getD i d = g i := by
  rw [List.getD_eq_getElem?_getD, List.getElem?_map, List.getElem?_range hi]
  rfl

/-- C9 counterexample: for the input file `"my.dir/cat.fits"` (a dot in
the directory part), realization `0`, format `"fits"` and no subdirectory
bucketing, the code writes `WLshear_my_0001r.fits` — the basename of the
part of the path before its first dot — while the claim's
`WLshear_<basename-without-extension>_0001r.fits` would be
`WLshear_cat_0001r.fits`. -/
theorem shear_savename_counterexample :
    shearCatalogSavename "out".toList (subdirectories 1 1) 1
        "my.dir/cat.fits".toList 0 "fits".toList =
      "out/WLshear_my_0001r.fits".toList ∧
    specShearSavename "out".toList 1 1 "my.dir/cat.fits".toList 0 "fits".toList =
      "out/WLshear_cat_0001r.fits".toList ∧
    shearCatalogSavename "out".toList (subdirectories 1 1) 1
        "my.dir/cat.fits".toList 0 "fits".toList ≠
      specShearSavename "out".toList 1 1 "my.dir/cat.fits".toList 0 "fits".toList := by
  refine ⟨by decide, by decide, by decide⟩

/-- C9 (amended): the shear catalog for realization `r` and input file `f`
is persisted under `"WLshear_" + basename-of-the-part-of-f-before-its-
first-dot + "_" + (r+1 zero-padded to 4 digits) + "r." + settings.format`,
inside the numbered subdirectory `(c*k+1)-((c+1)*k)` with `c = r // k`
when realizations are bucketed into subdirectories of size `k` dividing
the total with `k < total`, and directly in the catalog save path when
`k` equals the total. -/
theorem shear_savename_structure (savePath f format : List Char)
    (total k r : ℕ) (hk : k ∣ total) (hk0 : 0 < k) (hr : r < total) :
    shearCatalogSavename savePath (subdirectories total k) k f r format =
      amendedShearSavename savePath total k f r format := by
  rcases eq_or_ne k total with he | hne
  · subst he
    simp [shearCatalogSavename, subdirectories, amendedShearSavename, wlShearBasename]
  · have hne2 : total ≠ k := fun h => hne h.symm
    have hdivlt : r / k < total / k := Nat.div_lt_div_of_lt_of_dvd hk hr
    have hlen : 0 < total / k := lt_of_le_of_lt (Nat.zero_le (r / k)) hdivlt
    have hsub : subdirectories total k = (List.range (total / k)).map fun c =>
        natChars (c * k + 1) ++ "-".toList ++ natChars ((c + 1) * k) := by
      rw [subdirectories, if_neg hne2]
    rw [shearCatalogSavename, hsub,
      if_pos (by simp only [List.length_map, List.length_range]; omega),
      getD_map_range _ _ _ _ hdivlt, amendedShearSavename, if_neg hne]
    rfl

/-- Witness for `shear_savename_structure`: 4 realizations bucketed in
subdirectories of 2, realization index 2 (subdirectory `3-4`). -/
theorem shear_savename_structure_witness :
    (2 ∣ 4 ∧ 0 < 2 ∧ 2 < 4) ∧
    shearCatalogSavename "out".toList (subdirectories 4 2) 2
        "dir/cat.fits".toList 2 "fits".toList =
      amendedShearSavename "out".toList 4 2 "dir/cat.fits".toList 2 "fits".toList :=
  ⟨⟨by decide, by decide, by decide⟩,
    shear_savename_structure "out".toList "dir/cat.fits".toList "fits".toList
      4 2 2 (by decide) (by decide) (by decide)⟩

end LensTools
